import Mathlib

/-!
Shallow embedding of the Gravity-Wells core (src/game/physics.py,
src/game/objects.py, src/game/engine.py, src/game/level.py).

Python floats are modelled as real numbers; Python ints as `Nat`/`Int`.
Purely visual fields (colors, trails, pulse timers, particle lists) and
rendering code are omitted: they never feed back into positions,
velocities, collision tests or the state machine.
-/

open Classical

/-- 2D vector (`Vector2D` in physics.py). Fields `x`, `y` are floats,
modelled as reals. -/
@[ext] structure Vector2D where
  x : ℝ
  y : ℝ

/-- Vector addition, `Vector2D.__add__`. -/
def Vector2D.add (a b : Vector2D) : Vector2D := ⟨a.x + b.x, a.y + b.y⟩

/-- Vector subtraction, `Vector2D.__sub__`. -/
def Vector2D.sub (a b : Vector2D) : Vector2D := ⟨a.x - b.x, a.y - b.y⟩

/-- Scalar multiplication, `Vector2D.__mul__` (scalar on the right, as in the source). -/
def Vector2D.mul (a : Vector2D) (c : ℝ) : Vector2D := ⟨a.x * c, a.y * c⟩

/-- Scalar division, `Vector2D.__truediv__`. -/
noncomputable def Vector2D.div (a : Vector2D) (c : ℝ) : Vector2D := ⟨a.x / c, a.y / c⟩

/-- Euclidean length, `Vector2D.magnitude`: `math.sqrt(x**2 + y**2)`. -/
noncomputable def Vector2D.magnitude (a : Vector2D) : ℝ :=
  Real.sqrt (a.x ^ 2 + a.y ^ 2)

/-- Unit direction, `Vector2D.normalize`: divides by the magnitude when it is positive,
otherwise returns the zero vector. -/
noncomputable def Vector2D.normalize (a : Vector2D) : Vector2D :=
  if a.magnitude > 0 then ⟨a.x / a.magnitude, a.y / a.magnitude⟩ else ⟨0, 0⟩

/-- The constant `PhysicsEngine.gravity_constant` (set in `PhysicsEngine.__init__`). -/
def gravity_constant : ℝ := 5000

/-- The constant `PhysicsEngine.max_gravity_distance` (set in `PhysicsEngine.__init__`). -/
def max_gravity_distance : ℝ := 500

/-- A gravity source as consumed by the force model: a position, an
effective mass, and the `anti_gravity` tag (present on `AntiGravityWell`
objects; `calculate_total_gravity` detects it by attribute presence,
modelled here as an explicit boolean field). -/
structure GravitySource where
  position : Vector2D
  mass : ℝ
  anti_gravity : Bool

/-- Pairwise force, `PhysicsEngine.calculate_gravity_force(obj1_pos, obj1_mass,
obj2_pos, obj2_mass)`: zero inside 5 units and beyond `max_gravity_distance`,
otherwise an inverse-square force pointing from `obj1` toward `obj2`. -/
noncomputable def calculate_gravity_force (obj1_pos : Vector2D) (obj1_mass : ℝ)
    (obj2_pos : Vector2D) (obj2_mass : ℝ) : Vector2D :=
  let direction := obj2_pos.sub obj1_pos
  let distance := direction.magnitude
  if distance < 5 then ⟨0, 0⟩
  else if distance > max_gravity_distance then ⟨0, 0⟩
  else
    let force_magnitude := gravity_constant * obj1_mass * obj2_mass / distance ^ 2
    direction.normalize.mul force_magnitude

/-- Aggregate force, `PhysicsEngine.calculate_total_gravity`: accumulates the pairwise
force over the source list, negating the contribution of sources with
the `anti_gravity` tag. -/
noncomputable def calculate_total_gravity (position : Vector2D) (mass : ℝ)
    (gravity_sources : List GravitySource) : Vector2D :=
  gravity_sources.foldl
    (fun total_force source =>
      let force := calculate_gravity_force position mass source.position source.mass
      total_force.add (if source.anti_gravity then force.mul (-1) else force))
    ⟨0, 0⟩

/-- A body under integration: the position/velocity/mass triple that
`PhysicsEngine.update_object_physics` reads and writes on its `obj`
argument. -/
structure Body where
  position : Vector2D
  velocity : Vector2D
  mass : ℝ

/-- The integrator, `PhysicsEngine.update_object_physics`: velocity is updated from the
aggregate force first, then the position is advanced using the already
updated velocity. -/
noncomputable def update_object_physics (obj : Body)
    (gravity_sources : List GravitySource) (dt : ℝ) : Body :=
  let gravity_force := calculate_total_gravity obj.position obj.mass gravity_sources
  let acceleration := gravity_force.div obj.mass
  let velocity := obj.velocity.add (acceleration.mul dt)
  let position := obj.position.add (velocity.mul dt)
  ⟨position, velocity, obj.mass⟩

/-- The early-exit test of the prediction loop in
`PhysicsEngine.predict_trajectory`:
`pos.x < -500 or pos.x > 1500 or pos.y < -500 or pos.y > 1200`. -/
def trajOut (p : Vector2D) : Prop :=
  p.x < -500 ∨ p.x > 1500 ∨ p.y < -500 ∨ p.y > 1200

/-- The loop body of `PhysicsEngine.predict_trajectory`, recursing on the
remaining step count: record the current position, advance one integrator
step, and stop early when the new position leaves the off-screen bound.
The force/velocity/position update in the loop repeats, line for line,
the computation of `update_object_physics`, so it is expressed through
that definition. -/
noncomputable def predictAux (mass : ℝ) (gravity_sources : List GravitySource)
    (dt : ℝ) : Vector2D → Vector2D → Nat → List (ℝ × ℝ)
  | _, _, 0 => []
  | pos, vel, n + 1 =>
    (pos.x, pos.y) ::
      (let b := update_object_physics ⟨pos, vel, mass⟩ gravity_sources dt
       if trajOut b.position then []
       else predictAux mass gravity_sources dt b.position b.velocity n)

/-- The predictor, `PhysicsEngine.predict_trajectory(start_pos, start_vel, mass,
gravity_sources, steps, dt)`. The Python loop works on fresh `Vector2D`
copies of the start state, so it never touches the live body; the
recursion here carries exactly that private state. -/
noncomputable def predict_trajectory (start_pos start_vel : Vector2D) (mass : ℝ)
    (gravity_sources : List GravitySource) (steps : Nat) (dt : ℝ) : List (ℝ × ℝ) :=
  predictAux mass gravity_sources dt start_pos start_vel steps

/-- A call to `predict_trajectory` that supplies neither `steps` nor `dt`,
so both take the declared defaults `steps=100`, `dt=0.1`. -/
noncomputable def predict_trajectory_default (start_pos start_vel : Vector2D)
    (mass : ℝ) (gravity_sources : List GravitySource) : List (ℝ × ℝ) :=
  predict_trajectory start_pos start_vel mass gravity_sources 100 (1 / 10)

/-- The enumeration `GameState` in engine.py (plain ints in the source). -/
inductive GameState where
  | MENU
  | PLAYING
  | AIMING
  | FLYING
  | LEVEL_COMPLETE
  | GAME_OVER
deriving DecidableEq

/-- The spaceship (`Spaceship` in objects.py): position, velocity, mass 1,
radius 8, integer fuel starting at 100, and the `launched` flag. The
visual trail list is omitted (it never feeds into physics or state). -/
structure Spaceship where
  position : Vector2D
  velocity : Vector2D
  mass : ℝ
  radius : ℝ
  fuel : ℤ
  launched : Bool

/-- Constructor `Spaceship.__init__(x, y)`: starts at `(x, y)` with zero velocity,
mass 1, radius 8, fuel 100, not launched. -/
def Spaceship.new (x y : ℝ) : Spaceship :=
  { position := ⟨x, y⟩
    velocity := ⟨0, 0⟩
    mass := 1
    radius := 8
    fuel := 100
    launched := false }

/-- Launching, `Spaceship.launch(velocity)`: sets the velocity and the launched flag
(and clears the visual trail, which is not modelled). -/
def Spaceship.launch (s : Spaceship) (velocity : Vector2D) : Spaceship :=
  { s with velocity := velocity, launched := true }

/-- Course correction, `Spaceship.use_thruster(direction, power)`: only acts when fuel is
positive and the ship is launched; then it adds `normalize(direction) *
power` to the velocity and subtracts the fixed fuel cost 5. -/
noncomputable def Spaceship.use_thruster (s : Spaceship) (direction : Vector2D)
    (power : ℝ) : Spaceship :=
  if 0 < s.fuel ∧ s.launched = true then
    { s with velocity := s.velocity.add (direction.normalize.mul power)
             fuel := s.fuel - 5 }
  else s

/-- A level object as seen by the collision check: position and radius
(the shared `GameObject` interface of objects.py). -/
structure GameObject where
  position : Vector2D
  radius : ℝ

/-- `GameObject.collides_with` between the ship and a level object:
circle–circle test, distance of centers strictly below the radius sum. -/
def shipCollides (s : Spaceship) (o : GameObject) : Prop :=
  (s.position.sub o.position).magnitude < s.radius + o.radius

/-- The per-level state the flight state machine reads (`Level` in
level.py): start position, the ordered object list, which list index is
the goal (`Level.goal` is compared by object identity in
`check_collisions`, modelled as an index; `none` when the level has no
goal), the gravity-source list, and the shot budget. -/
structure Level where
  spaceship_start : Vector2D
  objects : List GameObject
  goalIdx : Option Nat
  gravity_sources : List GravitySource
  max_shots : Nat
  shots_used : Nat

/-- The engine fields the flight state machine mutates (`GameEngine`):
current state, the spaceship, and the current level. -/
structure EngineState where
  state : GameState
  spaceship : Spaceship
  level : Level

/-- The constant `GameEngine.screen_width`. -/
def screen_width : ℝ := 1024

/-- The constant `GameEngine.screen_height`. -/
def screen_height : ℝ := 768

/-- The off-screen test of `GameEngine.update_flying`:
`x < -100 or x > width + 100 or y < -100 or y > height + 100`. -/
def offScreen (p : Vector2D) : Prop :=
  p.x < -100 ∨ p.x > screen_width + 100 ∨ p.y < -100 ∨ p.y > screen_height + 100

/-- The failed-or-retry decision, `GameEngine.reset_for_next_shot`: out of shots means game over,
otherwise a fresh spaceship at the level start and back to aiming. The
shot counter is left untouched in both branches. -/
def reset_for_next_shot (es : EngineState) : EngineState :=
  if es.level.max_shots ≤ es.level.shots_used then
    { es with state := GameState.GAME_OVER }
  else
    { es with
        spaceship := Spaceship.new es.level.spaceship_start.x es.level.spaceship_start.y
        state := GameState.AIMING }

/-- The `for obj in self.current_level.objects` loop of
`GameEngine.check_collisions`: index of the first object the ship
collides with, `none` when there is no collision. -/
noncomputable def firstCollisionIdx (s : Spaceship) :
    Nat → List GameObject → Option Nat
  | _, [] => none
  | i, obj :: rest =>
    if shipCollides s obj then some i else firstCollisionIdx s (i + 1) rest

/-- The collision check, `GameEngine.check_collisions`: nothing happens unless the ship is
launched; otherwise the first colliding object decides — the goal object
itself (identity test `obj == self.current_level.goal`, here an index
comparison) completes the level, any other collider triggers the
failed-or-retry reset. -/
noncomputable def check_collisions (es : EngineState) : EngineState :=
  if es.spaceship.launched = true then
    match firstCollisionIdx es.spaceship 0 es.level.objects with
    | none => es
    | some i =>
      if es.level.goalIdx = some i then { es with state := GameState.LEVEL_COMPLETE }
      else reset_for_next_shot es
  else es

/-- The effect of `GameEngine.update_flying` applying `update_object_physics` to the
spaceship: position and velocity change, every other field is kept. -/
noncomputable def physicsStepShip (s : Spaceship)
    (gravity_sources : List GravitySource) (dt : ℝ) : Spaceship :=
  let b := update_object_physics ⟨s.position, s.velocity, s.mass⟩ gravity_sources dt
  { s with position := b.position, velocity := b.velocity }

/-- The flying tick, `GameEngine.update_flying(dt)`: when the ship is launched, one
integrator step, then `check_collisions`, then the off-screen test on the
spaceship the collision check left in place. (`Spaceship.update`, called
between the two, only appends to the visual trail and is omitted.) -/
noncomputable def update_flying (es : EngineState) (dt : ℝ) : EngineState :=
  if es.spaceship.launched = true then
    let es₁ := check_collisions
      { es with spaceship := physicsStepShip es.spaceship es.level.gravity_sources dt }
    if offScreen es₁.spaceship.position then reset_for_next_shot es₁ else es₁
  else es

/-- The launch command, `GameEngine.launch_spaceship` (reached from a mouse release while
aiming): rejects the launch unless the clamped slingshot pull exceeds the
threshold 10; on acceptance sets the launch velocity, flips to FLYING and
consumes one shot. -/
noncomputable def launch_spaceship (es : EngineState)
    (mouse_pos slingshot_base : Vector2D) : EngineState :=
  if es.spaceship.launched = true then es
  else
    let slingshot_vector := slingshot_base.sub mouse_pos
    let slingshot_distance := min slingshot_vector.magnitude 120
    if slingshot_distance > 10 then
      let launch_direction := slingshot_vector.normalize
      let power_factor := slingshot_distance / 120
      let launch_velocity := (launch_direction.mul power_factor).mul 350
      { es with
          spaceship := es.spaceship.launch launch_velocity
          state := GameState.FLYING
          level := { es.level with shots_used := es.level.shots_used + 1 } }
    else es

/-- The trajectory-preview call in `GameEngine.draw_trajectory_prediction`:
`predict_trajectory(..., steps=60, dt=0.15)`. -/
noncomputable def enginePreviewTrajectory (es : EngineState) : List (ℝ × ℝ) :=
  predict_trajectory es.spaceship.position es.spaceship.velocity
    es.spaceship.mass es.level.gravity_sources 60 (3 / 20)

/-- A trajectory sample inside the predictor's off-screen rectangle. -/
def inBoundsPt (q : ℝ × ℝ) : Prop :=
  -500 ≤ q.1 ∧ q.1 ≤ 1500 ∧ -500 ≤ q.2 ∧ q.2 ≤ 1200

/-- A launched spaceship hovering at `(200, 300)` with zero velocity
(concrete test ship for the flying-tick scenarios). -/
def shipFlying : Spaceship :=
  { position := ⟨200, 300⟩
    velocity := ⟨0, 0⟩
    mass := 1
    radius := 8
    fuel := 100
    launched := true }

/-- An `Obstacle` (objects.py default radius 15) placed at `(200, 300)`. -/
def obstC : GameObject := ⟨⟨200, 300⟩, 15⟩

/-- A `Goal` (objects.py radius 25) placed at `(200, 300)`. -/
def goalC : GameObject := ⟨⟨200, 300⟩, 25⟩

/-- Flying state on a one-shot level whose object list puts the obstacle
BEFORE the goal, both overlapping the ship; the last shot is spent. -/
def esObstFirst : EngineState :=
  ⟨GameState.FLYING, shipFlying, ⟨⟨100, 300⟩, [obstC, goalC], some 1, [], 1, 1⟩⟩

/-- Flying state on a one-shot level whose object list puts the goal
BEFORE the obstacle, both overlapping the ship; the last shot is spent. -/
def esGoalFirst : EngineState :=
  ⟨GameState.FLYING, shipFlying, ⟨⟨100, 300⟩, [goalC, obstC], some 0, [], 1, 1⟩⟩

/-- Flying state after the first and only launch on a `max_shots = 1`
level containing just an obstacle that the ship overlaps. -/
def esOneShot : EngineState :=
  ⟨GameState.FLYING, shipFlying, ⟨⟨100, 300⟩, [obstC], none, [], 1, 1⟩⟩

/-- Aiming state with an unlaunched ship and an untouched shot budget. -/
def esAiming : EngineState :=
  ⟨GameState.AIMING, Spaceship.new 100 300, ⟨⟨100, 300⟩, [], none, [], 3, 0⟩⟩

/-- The magnitude of the zero vector is zero. -/
theorem magnitude_zero_vec : (Vector2D.mk 0 0).magnitude = 0 := by
  simp [Vector2D.magnitude]

/-- Magnitude of an axis-aligned vector with nonnegative x component. -/
theorem magnitude_axis (a : ℝ) (h : 0 ≤ a) : (Vector2D.mk a 0).magnitude = a := by
  simp [Vector2D.magnitude]
  exact Real.sqrt_sq h

/-- Magnitudes are nonnegative. -/
theorem magnitude_nonneg (v : Vector2D) : 0 ≤ v.magnitude :=
  Real.sqrt_nonneg _

/-- Scaling a vector scales its magnitude by the absolute scalar. -/
theorem magnitude_mul (v : Vector2D) (c : ℝ) :
    (v.mul c).magnitude = |c| * v.magnitude := by
  unfold Vector2D.magnitude Vector2D.mul
  have h : (v.x * c) ^ 2 + (v.y * c) ^ 2 = c ^ 2 * (v.x ^ 2 + v.y ^ 2) := by ring
  rw [h, Real.sqrt_mul (sq_nonneg c), Real.sqrt_sq_eq_abs]

/-- A vector of positive magnitude normalizes to a unit vector. -/
theorem magnitude_normalize (v : Vector2D) (h : 0 < v.magnitude) :
    v.normalize.magnitude = 1 := by
  unfold Vector2D.normalize
  rw [if_pos h]
  have hv : (Vector2D.mk (v.x / v.magnitude) (v.y / v.magnitude)) =
      v.mul v.magnitude⁻¹ := by
    unfold Vector2D.mul
    ext <;> simp [div_eq_mul_inv]
  rw [hv, magnitude_mul, abs_of_nonneg (inv_nonneg.mpr h.le),
    inv_mul_cancel₀ (ne_of_gt h)]

/-- Subtracting a vector from itself gives the zero vector. -/
theorem sub_self_vec (v : Vector2D) : v.sub v = ⟨0, 0⟩ := by
  unfold Vector2D.sub
  ext <;> simp

/-- The aggregate gravity of an empty source list is zero. -/
theorem total_gravity_nil (p : Vector2D) (m : ℝ) :
    calculate_total_gravity p m [] = ⟨0, 0⟩ := rfl

/-- One integration step with no sources: velocity is kept, the position
advances by velocity times `dt`. -/
theorem update_object_physics_nil (b : Body) (dt : ℝ) :
    update_object_physics b [] dt =
      ⟨b.position.add (b.velocity.mul dt), b.velocity, b.mass⟩ := by
  have hv : b.velocity.add (((Vector2D.mk 0 0).div b.mass).mul dt) = b.velocity := by
    unfold Vector2D.add Vector2D.div Vector2D.mul
    ext <;> simp
  simp only [update_object_physics, total_gravity_nil, hv]

/-- A ship with zero velocity and no sources does not move in one step. -/
theorem physicsStepShip_nil_zero (s : Spaceship) (dt : ℝ)
    (h : s.velocity = ⟨0, 0⟩) : physicsStepShip s [] dt = s := by
  unfold physicsStepShip
  rw [update_object_physics_nil]
  have hp : s.position.add (s.velocity.mul dt) = s.position := by
    rw [h]
    unfold Vector2D.add Vector2D.mul
    ext <;> simp
  simp [hp]

/-- `update_flying` of a launched ship: one physics step, the collision
check, then the off-screen test. -/
theorem update_flying_eq (es : EngineState) (dt : ℝ)
    (h : es.spaceship.launched = true) :
    update_flying es dt =
      (if offScreen
          (check_collisions
            { es with
                spaceship :=
                  physicsStepShip es.spaceship es.level.gravity_sources dt }).spaceship.position
       then reset_for_next_shot
          (check_collisions
            { es with
                spaceship :=
                  physicsStepShip es.spaceship es.level.gravity_sources dt })
       else check_collisions
          { es with
              spaceship :=
                physicsStepShip es.spaceship es.level.gravity_sources dt }) := by
  unfold update_flying
  rw [if_pos h]

/-- `check_collisions` when nothing collides: the state is untouched. -/
theorem check_collisions_none (es : EngineState)
    (h2 : firstCollisionIdx es.spaceship 0 es.level.objects = none) :
    check_collisions es = es := by
  unfold check_collisions
  by_cases h : es.spaceship.launched = true
  · rw [if_pos h, h2]
  · rw [if_neg h]

/-- `check_collisions` when the first collider is the goal object. -/
theorem check_collisions_goal (es : EngineState) (i : Nat)
    (h : es.spaceship.launched = true)
    (h2 : firstCollisionIdx es.spaceship 0 es.level.objects = some i)
    (h3 : es.level.goalIdx = some i) :
    check_collisions es = { es with state := GameState.LEVEL_COMPLETE } := by
  unfold check_collisions
  rw [if_pos h, h2]
  exact if_pos h3

/-- `check_collisions` when the first collider is not the goal object. -/
theorem check_collisions_obstacle (es : EngineState) (i : Nat)
    (h : es.spaceship.launched = true)
    (h2 : firstCollisionIdx es.spaceship 0 es.level.objects = some i)
    (h3 : ¬ es.level.goalIdx = some i) :
    check_collisions es = reset_for_next_shot es := by
  unfold check_collisions
  rw [if_pos h, h2]
  exact if_neg h3

/-- `reset_for_next_shot` with the budget exhausted: game over, the ship
and the shot counter are untouched. -/
theorem reset_for_next_shot_over (es : EngineState)
    (h : es.level.max_shots ≤ es.level.shots_used) :
    reset_for_next_shot es = { es with state := GameState.GAME_OVER } := by
  unfold reset_for_next_shot
  exact if_pos h

/-- `reset_for_next_shot` with shots remaining: fresh ship at the level
start, back to aiming, shot counter untouched. -/
theorem reset_for_next_shot_retry (es : EngineState)
    (h : es.level.shots_used < es.level.max_shots) :
    reset_for_next_shot es =
      { es with
          spaceship := Spaceship.new es.level.spaceship_start.x es.level.spaceship_start.y
          state := GameState.AIMING } := by
  unfold reset_for_next_shot
  exact if_neg (not_le.mpr h)

/-- Two ships at the same center always collide (the radius sum of the
game objects involved is positive). -/
theorem shipCollides_same_pos (s : Spaceship) (o : GameObject)
    (h : s.position = o.position) (hr : 0 < s.radius + o.radius) :
    shipCollides s o := by
  unfold shipCollides
  rw [h, sub_self_vec, magnitude_zero_vec]
  exact hr

/-- A position is inside the predictor's rectangle exactly when the
early-exit test fails. -/
theorem not_trajOut_iff (p : Vector2D) : ¬ trajOut p ↔ inBoundsPt (p.x, p.y) := by
  unfold trajOut inBoundsPt
  push_neg
  simp only [not_lt]

/-- The prediction loop emits at most one sample per remaining step. -/
theorem predictAux_length_le (m : ℝ) (s : List GravitySource) (dt : ℝ) :
    ∀ (n : Nat) (pos vel : Vector2D), (predictAux m s dt pos vel n).length ≤ n := by
  intro n
  induction n with
  | zero => intro pos vel; simp [predictAux]
  | succ k ih =>
    intro pos vel
    simp only [predictAux, List.length_cons]
    split
    · simp
    · exact Nat.succ_le_succ (ih _ _)

/-- With no gravity sources and zero start velocity, the prediction loop
stays put: the full sample budget is emitted at the start position. -/
theorem predictAux_nil_zero (m dt : ℝ) (pos : Vector2D) (h : ¬ trajOut pos) :
    ∀ n, predictAux m [] dt pos ⟨0, 0⟩ n = List.replicate n (pos.x, pos.y) := by
  have hp : pos.add ((Vector2D.mk 0 0).mul dt) = pos := by
    unfold Vector2D.add Vector2D.mul
    ext <;> simp
  intro n
  induction n with
  | zero => simp [predictAux]
  | succ k ih =>
    simp only [predictAux, update_object_physics_nil, hp, if_neg h, ih,
      List.replicate_succ]

/-- Every sample the prediction loop emits from an in-bounds start lies
inside the rectangle. -/
theorem predictAux_mem_inBounds (m : ℝ) (s : List GravitySource) (dt : ℝ) :
    ∀ (n : Nat) (pos vel : Vector2D), ¬ trajOut pos →
      ∀ q ∈ predictAux m s dt pos vel n, inBoundsPt q := by
  intro n
  induction n with
  | zero =>
    intro pos vel h q hq
    simp [predictAux] at hq
  | succ k ih =>
    intro pos vel h q hq
    simp only [predictAux] at hq
    rcases List.mem_cons.mp hq with hq0 | hq'
    · rw [hq0]
      exact (not_trajOut_iff pos).mp h
    · by_cases hout :
        trajOut (update_object_physics ⟨pos, vel, m⟩ s dt).position
      · rw [if_pos hout] at hq'
        simp at hq'
      · rw [if_neg hout] at hq'
        exact ih _ _ hout q hq'

/-- Componentwise form of vector subtraction on literals. -/
theorem sub_mk (a b c d : ℝ) :
    (Vector2D.mk a b).sub ⟨c, d⟩ = ⟨a - c, b - d⟩ := rfl

/-- The test ship collides with the co-located obstacle. -/
theorem shipFlying_hits_obstC : shipCollides shipFlying obstC :=
  shipCollides_same_pos shipFlying obstC rfl (by norm_num [shipFlying, obstC])

/-- The test ship collides with the co-located goal. -/
theorem shipFlying_hits_goalC : shipCollides shipFlying goalC :=
  shipCollides_same_pos shipFlying goalC rfl (by norm_num [shipFlying, goalC])

/-- In the obstacle-first object list, the first collider has index 0. -/
theorem fci_obst_goal : firstCollisionIdx shipFlying 0 [obstC, goalC] = some 0 := by
  unfold firstCollisionIdx
  rw [if_pos shipFlying_hits_obstC]

/-- In the goal-first object list, the first collider has index 0. -/
theorem fci_goal_obst : firstCollisionIdx shipFlying 0 [goalC, obstC] = some 0 := by
  unfold firstCollisionIdx
  rw [if_pos shipFlying_hits_goalC]

/-- In the obstacle-only object list, the first collider has index 0. -/
theorem fci_obst : firstCollisionIdx shipFlying 0 [obstC] = some 0 := by
  unfold firstCollisionIdx
  rw [if_pos shipFlying_hits_obstC]

/-- The test ship's position is not off screen. -/
theorem not_offScreen_test_pos : ¬ offScreen ⟨200, 300⟩ := by
  unfold offScreen screen_width screen_height
  push_neg
  norm_num

/-- A flying tick of a motionless ship on a sourceless level reduces to
the collision check followed by the off-screen test. -/
theorem update_flying_static (es : EngineState) (dt : ℝ)
    (hs : es.spaceship = shipFlying) (hg : es.level.gravity_sources = []) :
    update_flying es dt =
      (if offScreen (check_collisions es).spaceship.position
       then reset_for_next_shot (check_collisions es)
       else check_collisions es) := by
  have h1 : physicsStepShip es.spaceship es.level.gravity_sources dt = es.spaceship := by
    rw [hs, hg]
    exact physicsStepShip_nil_zero _ _ rfl
  have hl : es.spaceship.launched = true := by rw [hs]; rfl
  rw [update_flying_eq es dt hl]
  simp only [h1]

/-- Tick outcome on the obstacle-first level: the obstacle is hit first
and the exhausted budget makes the attempt terminal. -/
theorem update_flying_esObstFirst (dt : ℝ) :
    update_flying esObstFirst dt = { esObstFirst with state := GameState.GAME_OVER } := by
  rw [update_flying_static esObstFirst dt rfl rfl]
  have hc : check_collisions esObstFirst = reset_for_next_shot esObstFirst :=
    check_collisions_obstacle esObstFirst 0 rfl fci_obst_goal (by simp [esObstFirst])
  have hr : reset_for_next_shot esObstFirst =
      { esObstFirst with state := GameState.GAME_OVER } :=
    reset_for_next_shot_over esObstFirst (le_refl 1)
  rw [hc, hr]
  exact if_neg not_offScreen_test_pos

/-- Tick outcome on the goal-first level: the goal is hit first and the
level completes. -/
theorem update_flying_esGoalFirst (dt : ℝ) :
    update_flying esGoalFirst dt =
      { esGoalFirst with state := GameState.LEVEL_COMPLETE } := by
  rw [update_flying_static esGoalFirst dt rfl rfl]
  have hc : check_collisions esGoalFirst =
      { esGoalFirst with state := GameState.LEVEL_COMPLETE } :=
    check_collisions_goal esGoalFirst 0 rfl fci_goal_obst rfl
  rw [hc]
  exact if_neg not_offScreen_test_pos

/-- Tick outcome on the one-shot obstacle level: collision, no shots
left, game over, with the shot counter untouched. -/
theorem update_flying_esOneShot (dt : ℝ) :
    update_flying esOneShot dt = { esOneShot with state := GameState.GAME_OVER } := by
  rw [update_flying_static esOneShot dt rfl rfl]
  have hc : check_collisions esOneShot = reset_for_next_shot esOneShot :=
    check_collisions_obstacle esOneShot 0 rfl fci_obst (by simp [esOneShot])
  have hr : reset_for_next_shot esOneShot =
      { esOneShot with state := GameState.GAME_OVER } :=
    reset_for_next_shot_over esOneShot (le_refl 1)
  rw [hc, hr]
  exact if_neg not_offScreen_test_pos

/-- Inside the active band (5 ≤ distance ≤ max) the pairwise force is the
inverse-square expression along the normalized direction. -/
theorem calculate_gravity_force_in_range (p₁ : Vector2D) (m₁ : ℝ)
    (p₂ : Vector2D) (m₂ : ℝ)
    (h5 : 5 ≤ (p₂.sub p₁).magnitude)
    (h500 : (p₂.sub p₁).magnitude ≤ max_gravity_distance) :
    calculate_gravity_force p₁ m₁ p₂ m₂ =
      (p₂.sub p₁).normalize.mul
        (gravity_constant * m₁ * m₂ / (p₂.sub p₁).magnitude ^ 2) := by
  unfold calculate_gravity_force
  rw [if_neg (not_lt.mpr h5), if_neg (not_lt.mpr h500)]

/-- Magnitude of the in-range pairwise force: `G * m₁ * m₂ / d²`. -/
theorem gravity_force_magnitude (p₁ : Vector2D) (m₁ : ℝ)
    (p₂ : Vector2D) (m₂ : ℝ) (hm₁ : 0 < m₁) (hm₂ : 0 < m₂)
    (h5 : 5 ≤ (p₂.sub p₁).magnitude)
    (h500 : (p₂.sub p₁).magnitude ≤ max_gravity_distance) :
    (calculate_gravity_force p₁ m₁ p₂ m₂).magnitude =
      gravity_constant * m₁ * m₂ / (p₂.sub p₁).magnitude ^ 2 := by
  have hd : 0 < (p₂.sub p₁).magnitude := lt_of_lt_of_le (by norm_num) h5
  have hG : (0:ℝ) < gravity_constant := by unfold gravity_constant; norm_num
  have hpos : 0 < gravity_constant * m₁ * m₂ / (p₂.sub p₁).magnitude ^ 2 :=
    div_pos (mul_pos (mul_pos hG hm₁) hm₂) (pow_pos hd 2)
  rw [calculate_gravity_force_in_range p₁ m₁ p₂ m₂ h5 h500, magnitude_mul,
    magnitude_normalize _ hd, mul_one, abs_of_pos hpos]

/-- An unlaunched ship with a clamped pull of at most 10 units: the
launch command leaves the whole engine state untouched. -/
theorem launch_spaceship_reject (es : EngineState) (mouse base : Vector2D)
    (h : es.spaceship.launched = false)
    (hmag : (base.sub mouse).magnitude ≤ 10) :
    launch_spaceship es mouse base = es := by
  unfold launch_spaceship
  rw [if_neg (by rw [h]; simp)]
  have hmin : ¬ (min (base.sub mouse).magnitude 120 > 10) :=
    not_lt.mpr (le_trans (min_le_left _ _) hmag)
  exact if_neg hmin

/-- An unlaunched ship with a pull strictly above 10 units: the launch is
accepted with the slingshot velocity, one shot is consumed, and the state
becomes FLYING. -/
theorem launch_spaceship_accept (es : EngineState) (mouse base : Vector2D)
    (h : es.spaceship.launched = false)
    (hmag : 10 < (base.sub mouse).magnitude) :
    launch_spaceship es mouse base =
      { es with
          spaceship := es.spaceship.launch
            ((((base.sub mouse).normalize).mul
              (min (base.sub mouse).magnitude 120 / 120)).mul 350)
          state := GameState.FLYING
          level := { es.level with shots_used := es.level.shots_used + 1 } } := by
  unfold launch_spaceship
  rw [if_neg (by rw [h]; simp)]
  have hmin : min (base.sub mouse).magnitude 120 > 10 :=
    lt_min_iff.mpr ⟨hmag, by norm_num⟩
  exact if_pos hmin

/-- The origin is inside the predictor's rectangle. -/
theorem not_trajOut_origin : ¬ trajOut ⟨0, 0⟩ := by
  unfold trajOut
  push_neg
  norm_num

/-- C5: for every pair of positions and masses, the pairwise force is the
exact zero vector when the distance is strictly below 5 units or strictly
above the maximum interaction distance, which defaults to 500 units. -/
theorem C5_force_zero_outside_range :
    max_gravity_distance = 500 ∧
      ∀ (p₁ : Vector2D) (m₁ : ℝ) (p₂ : Vector2D) (m₂ : ℝ),
        ((p₂.sub p₁).magnitude < 5 ∨ (p₂.sub p₁).magnitude > max_gravity_distance) →
        calculate_gravity_force p₁ m₁ p₂ m₂ = ⟨0, 0⟩ := by
  refine ⟨rfl, ?_⟩
  intro p₁ m₁ p₂ m₂ h
  unfold calculate_gravity_force
  rcases h with h | h
  · rw [if_pos h]
  · by_cases h5 : (p₂.sub p₁).magnitude < 5
    · rw [if_pos h5]
    · rw [if_neg h5, if_pos h]

/-- Witness for C5 at distance 3 (below the 5-unit guard): the force
between `(0,0)` and `(3,0)` with unit masses is the zero vector. -/
theorem C5_force_zero_outside_range_witness :
    calculate_gravity_force ⟨0, 0⟩ 1 ⟨3, 0⟩ 1 = ⟨0, 0⟩ := by
  refine C5_force_zero_outside_range.2 ⟨0, 0⟩ 1 ⟨3, 0⟩ 1 (Or.inl ?_)
  have h : (Vector2D.mk 3 0).sub ⟨0, 0⟩ = ⟨3, 0⟩ := by
    unfold Vector2D.sub
    ext <;> norm_num
  rw [h, magnitude_axis 3 (by norm_num)]
  norm_num

/-- C6: with positive masses and the distance in the active band
`5 ≤ d ≤ max`, the force magnitude is `G·m₁·m₂/d²`; hence it strictly
decreases in the distance over that band and doubles when either mass is
doubled. -/
theorem C6_force_magnitude_law :
    (∀ (p₁ : Vector2D) (m₁ : ℝ) (p₂ : Vector2D) (m₂ : ℝ),
        0 < m₁ → 0 < m₂ →
        5 ≤ (p₂.sub p₁).magnitude →
        (p₂.sub p₁).magnitude ≤ max_gravity_distance →
        (calculate_gravity_force p₁ m₁ p₂ m₂).magnitude =
          gravity_constant * m₁ * m₂ / (p₂.sub p₁).magnitude ^ 2) ∧
    (∀ (p : Vector2D) (m M : ℝ) (q₁ q₂ : Vector2D),
        0 < m → 0 < M →
        5 ≤ (q₁.sub p).magnitude →
        (q₁.sub p).magnitude < (q₂.sub p).magnitude →
        (q₂.sub p).magnitude ≤ max_gravity_distance →
        (calculate_gravity_force p m q₂ M).magnitude <
          (calculate_gravity_force p m q₁ M).magnitude) ∧
    (∀ (p₁ : Vector2D) (m₁ : ℝ) (p₂ : Vector2D) (m₂ : ℝ),
        0 < m₁ → 0 < m₂ →
        5 ≤ (p₂.sub p₁).magnitude →
        (p₂.sub p₁).magnitude ≤ max_gravity_distance →
        (calculate_gravity_force p₁ (2 * m₁) p₂ m₂).magnitude =
            2 * (calculate_gravity_force p₁ m₁ p₂ m₂).magnitude ∧
        (calculate_gravity_force p₁ m₁ p₂ (2 * m₂)).magnitude =
            2 * (calculate_gravity_force p₁ m₁ p₂ m₂).magnitude) := by
  refine ⟨gravity_force_magnitude, ?_, ?_⟩
  · intro p m M q₁ q₂ hm hM h5 hlt h500
    have h5' : 5 ≤ (q₂.sub p).magnitude := le_of_lt (lt_of_le_of_lt h5 hlt)
    have h500' : (q₁.sub p).magnitude ≤ max_gravity_distance :=
      le_trans (le_of_lt hlt) h500
    rw [gravity_force_magnitude p m q₂ M hm hM h5' h500,
      gravity_force_magnitude p m q₁ M hm hM h5 h500']
    have hd1 : 0 < (q₁.sub p).magnitude := lt_of_lt_of_le (by norm_num) h5
    have hsq : (q₁.sub p).magnitude ^ 2 < (q₂.sub p).magnitude ^ 2 := by
      apply pow_lt_pow_left₀ hlt (magnitude_nonneg _)
      norm_num
    have hG : (0:ℝ) < gravity_constant := by unfold gravity_constant; norm_num
    exact div_lt_div_of_pos_left (mul_pos (mul_pos hG hm) hM) (pow_pos hd1 2) hsq
  · intro p₁ m₁ p₂ m₂ hm₁ hm₂ h5 h500
    constructor
    · rw [gravity_force_magnitude p₁ (2 * m₁) p₂ m₂ (by linarith) hm₂ h5 h500,
        gravity_force_magnitude p₁ m₁ p₂ m₂ hm₁ hm₂ h5 h500]
      ring
    · rw [gravity_force_magnitude p₁ m₁ p₂ (2 * m₂) hm₁ (by linarith) h5 h500,
        gravity_force_magnitude p₁ m₁ p₂ m₂ hm₁ hm₂ h5 h500]
      ring

/-- Witness for C6: unit masses at distances 10 and 20 on the x-axis —
the closer source feels force of magnitude 5000/100 = 50, the farther one
strictly less. -/
theorem C6_force_magnitude_law_witness :
    (calculate_gravity_force ⟨0, 0⟩ 1 ⟨10, 0⟩ 1).magnitude = 50 ∧
    (calculate_gravity_force ⟨0, 0⟩ 1 ⟨20, 0⟩ 1).magnitude <
      (calculate_gravity_force ⟨0, 0⟩ 1 ⟨10, 0⟩ 1).magnitude := by
  have h10 : (Vector2D.mk 10 0).sub ⟨0, 0⟩ = ⟨10, 0⟩ := by
    unfold Vector2D.sub
    ext <;> norm_num
  have h20 : (Vector2D.mk 20 0).sub ⟨0, 0⟩ = ⟨20, 0⟩ := by
    unfold Vector2D.sub
    ext <;> norm_num
  have hm10 : ((Vector2D.mk 10 0).sub ⟨0, 0⟩).magnitude = 10 := by
    rw [h10]
    exact magnitude_axis 10 (by norm_num)
  have hm20 : ((Vector2D.mk 20 0).sub ⟨0, 0⟩).magnitude = 20 := by
    rw [h20]
    exact magnitude_axis 20 (by norm_num)
  constructor
  · have h := C6_force_magnitude_law.1 ⟨0, 0⟩ 1 ⟨10, 0⟩ 1 one_pos one_pos
      (by rw [hm10]; norm_num)
      (by rw [hm10]; unfold max_gravity_distance; norm_num)
    rw [h, hm10]
    unfold gravity_constant
    norm_num
  · exact C6_force_magnitude_law.2.1 ⟨0, 0⟩ 1 1 ⟨10, 0⟩ ⟨20, 0⟩ one_pos one_pos
      (by rw [hm10]; norm_num)
      (by rw [hm10, hm20]; norm_num)
      (by rw [hm20]; unfold max_gravity_distance; norm_num)

/-- C7: one integrator tick updates the velocity from the aggregate force
first and then advances the position using the UPDATED velocity; with an
empty source list the velocity is unchanged and the position advances by
exactly `v·Δt`. -/
theorem C7_semi_implicit_euler :
    ∀ (b : Body) (s : List GravitySource) (dt : ℝ),
      (update_object_physics b s dt).velocity =
          b.velocity.add
            (((calculate_total_gravity b.position b.mass s).div b.mass).mul dt) ∧
      (update_object_physics b s dt).position =
          b.position.add (((update_object_physics b s dt).velocity).mul dt) ∧
      (update_object_physics b [] dt).velocity = b.velocity ∧
      (update_object_physics b [] dt).position = b.position.add (b.velocity.mul dt) := by
  intro b s dt
  refine ⟨rfl, rfl, ?_, ?_⟩
  · rw [update_object_physics_nil]
  · rw [update_object_physics_nil]

/-- C8: with at least one requested step the predicted sequence is
non-empty, no longer than the requested step count, starts with the start
position, and is a pure function of its inputs (two calls with the same
inputs agree). -/
theorem C8_predict_basic_properties :
    ∀ (p v : Vector2D) (m : ℝ) (s : List GravitySource) (steps : Nat) (dt : ℝ),
      1 ≤ steps →
      predict_trajectory p v m s steps dt ≠ [] ∧
      (predict_trajectory p v m s steps dt).length ≤ steps ∧
      (predict_trajectory p v m s steps dt).head? = some (p.x, p.y) ∧
      predict_trajectory p v m s steps dt = predict_trajectory p v m s steps dt := by
  intro p v m s steps dt hsteps
  obtain ⟨k, rfl⟩ : ∃ k, steps = k + 1 :=
    ⟨steps - 1, (Nat.succ_pred_eq_of_pos hsteps).symm⟩
  refine ⟨?_, predictAux_length_le m s dt _ _ _, ?_, rfl⟩
  · unfold predict_trajectory
    simp [predictAux]
  · unfold predict_trajectory
    simp only [predictAux, List.head?_cons]

/-- Witness for C8 at one requested step from the origin with no
sources. -/
theorem C8_predict_basic_properties_witness :
    predict_trajectory ⟨0, 0⟩ ⟨0, 0⟩ 1 [] 1 (1 / 10) ≠ [] ∧
    (predict_trajectory ⟨0, 0⟩ ⟨0, 0⟩ 1 [] 1 (1 / 10)).length ≤ 1 ∧
    (predict_trajectory ⟨0, 0⟩ ⟨0, 0⟩ 1 [] 1 (1 / 10)).head? = some (0, 0) ∧
    predict_trajectory ⟨0, 0⟩ ⟨0, 0⟩ 1 [] 1 (1 / 10) =
      predict_trajectory ⟨0, 0⟩ ⟨0, 0⟩ 1 [] 1 (1 / 10) :=
  C8_predict_basic_properties ⟨0, 0⟩ ⟨0, 0⟩ 1 [] 1 (1 / 10) (le_refl 1)

/-- C10: every sample of a predicted trajectory except possibly the first
lies inside the rectangle `-500 ≤ x ≤ 1500`, `-500 ≤ y ≤ 1200`. -/
theorem C10_tail_in_bounds :
    ∀ (p v : Vector2D) (m : ℝ) (s : List GravitySource) (steps : Nat) (dt : ℝ),
      ∀ q ∈ (predict_trajectory p v m s steps dt).tail, inBoundsPt q := by
  intro p v m s steps dt q hq
  match steps with
  | 0 => simp [predict_trajectory, predictAux] at hq
  | k + 1 =>
    unfold predict_trajectory at hq
    simp only [predictAux, List.tail_cons] at hq
    by_cases hout : trajOut (update_object_physics ⟨p, v, m⟩ s dt).position
    · rw [if_pos hout] at hq
      simp at hq
    · rw [if_neg hout] at hq
      exact predictAux_mem_inBounds m s dt k _ _ hout q hq

/-- Witness for C10: the second sample of a two-step sourceless
prediction from the origin is inside the rectangle. -/
theorem C10_tail_in_bounds_witness : inBoundsPt ((0 : ℝ), (0 : ℝ)) := by
  apply C10_tail_in_bounds ⟨0, 0⟩ ⟨0, 0⟩ 1 [] 2 (1 / 10) ((0 : ℝ), (0 : ℝ))
  have h : predict_trajectory ⟨0, 0⟩ ⟨0, 0⟩ 1 [] 2 (1 / 10) =
      List.replicate 2 (0, 0) := by
    unfold predict_trajectory
    exact predictAux_nil_zero 1 (1 / 10) ⟨0, 0⟩ not_trajOut_origin 2
  rw [h]
  simp

/-- C4 counterexample: a default-parameter call of the predictor with a
motionless start and no sources returns 100 samples, more than 60 — the
declared default for `steps` is 100, not 60. -/
theorem C4_default_steps_counterexample :
    (predict_trajectory_default ⟨0, 0⟩ ⟨0, 0⟩ 1 []).length = 100 ∧
    ¬ (predict_trajectory_default ⟨0, 0⟩ ⟨0, 0⟩ 1 []).length ≤ 60 := by
  have h : predict_trajectory_default ⟨0, 0⟩ ⟨0, 0⟩ 1 [] =
      List.replicate 100 (0, 0) := by
    unfold predict_trajectory_default predict_trajectory
    exact predictAux_nil_zero 1 (1 / 10) ⟨0, 0⟩ not_trajOut_origin 100
  rw [h]
  simp

/-- C4 amended: the declared defaults of `predict_trajectory` are
`steps=100`, `dt=0.1`, so a default call returns at most 100 samples; the
value 60 is what the engine's preview call passes explicitly, so the
on-screen preview holds at most 60 samples. -/
theorem C4_default_steps :
    (∀ (p v : Vector2D) (m : ℝ) (s : List GravitySource),
        predict_trajectory_default p v m s = predict_trajectory p v m s 100 (1 / 10)) ∧
    (∀ (p v : Vector2D) (m : ℝ) (s : List GravitySource),
        (predict_trajectory_default p v m s).length ≤ 100) ∧
    (∀ es : EngineState, (enginePreviewTrajectory es).length ≤ 60) := by
  refine ⟨fun p v m s => rfl, fun p v m s => ?_, fun es => ?_⟩
  · exact predictAux_length_le m s (1 / 10) 100 p v
  · exact predictAux_length_le _ _ _ 60 _ _

/-- C9: `use_thruster` is a no-op when fuel is non-positive or the craft
is not launched; otherwise it adds exactly `normalize(direction)·power`
to the velocity, lowers fuel by the fixed cost 5, and leaves the position
unchanged. -/
theorem C9_thruster :
    ∀ (s : Spaceship) (direction : Vector2D) (power : ℝ),
      ((s.fuel ≤ 0 ∨ s.launched = false) →
        s.use_thruster direction power = s) ∧
      (0 < s.fuel → s.launched = true →
        (s.use_thruster direction power).velocity =
            s.velocity.add (direction.normalize.mul power) ∧
        (s.use_thruster direction power).fuel = s.fuel - 5 ∧
        (s.use_thruster direction power).position = s.position) := by
  intro s direction power
  constructor
  · intro h
    unfold Spaceship.use_thruster
    have hn : ¬ (0 < s.fuel ∧ s.launched = true) := by
      rcases h with h | h
      · exact fun hc => absurd hc.1 (not_lt.mpr h)
      · intro hc
        rw [h] at hc
        exact Bool.false_ne_true hc.2
    rw [if_neg hn]
  · intro h1 h2
    unfold Spaceship.use_thruster
    rw [if_pos ⟨h1, h2⟩]
    exact ⟨rfl, rfl, rfl⟩

/-- Witness for C9: the flying test ship (fuel 100) fires a thruster and
ends with fuel 95 at an unchanged position. -/
theorem C9_thruster_witness :
    (shipFlying.use_thruster ⟨1, 0⟩ 30).fuel = 95 ∧
    (shipFlying.use_thruster ⟨1, 0⟩ 30).position = shipFlying.position := by
  have h := (C9_thruster shipFlying ⟨1, 0⟩ 30).2 (by decide) rfl
  refine ⟨?_, h.2.2⟩
  rw [h.2.1]
  decide

/-- C2: the failed-or-retry decision: an exhausted budget gives GAME_OVER
(terminal), otherwise a fresh ship at the level start with zero velocity
and state AIMING; the shot counter is never decremented. In particular a
one-shot level whose only launch hits an obstacle ends in GAME_OVER with
one shot recorded. -/
theorem C2_failed_or_retry :
    (∀ es : EngineState,
      (reset_for_next_shot es).level.shots_used = es.level.shots_used ∧
      (es.level.max_shots ≤ es.level.shots_used →
        (reset_for_next_shot es).state = GameState.GAME_OVER ∧
        (reset_for_next_shot es).spaceship = es.spaceship) ∧
      (es.level.shots_used < es.level.max_shots →
        (reset_for_next_shot es).state = GameState.AIMING ∧
        (reset_for_next_shot es).spaceship.position = es.level.spaceship_start ∧
        (reset_for_next_shot es).spaceship.velocity = ⟨0, 0⟩ ∧
        (reset_for_next_shot es).spaceship.launched = false)) ∧
    ((update_flying esOneShot (1 / 10)).state = GameState.GAME_OVER ∧
      (update_flying esOneShot (1 / 10)).level.shots_used = 1 ∧
      esOneShot.level.max_shots = 1) := by
  constructor
  · intro es
    refine ⟨?_, ?_, ?_⟩
    · unfold reset_for_next_shot
      split <;> rfl
    · intro h
      rw [reset_for_next_shot_over es h]
      exact ⟨rfl, rfl⟩
    · intro h
      rw [reset_for_next_shot_retry es h]
      exact ⟨rfl, rfl, rfl, rfl⟩
  · refine ⟨?_, ?_, rfl⟩
    · rw [update_flying_esOneShot]
    · rw [update_flying_esOneShot]
      rfl

/-- Witness for C2 on the exhausted one-shot level: shots stay at 1 and
the decision is GAME_OVER. -/
theorem C2_failed_or_retry_witness :
    (reset_for_next_shot esOneShot).level.shots_used = 1 ∧
    (reset_for_next_shot esOneShot).state = GameState.GAME_OVER :=
  ⟨(C2_failed_or_retry.1 esOneShot).1,
    ((C2_failed_or_retry.1 esOneShot).2.1 (le_refl 1)).1⟩

/-- C3 counterexample: a pull of magnitude exactly 10 — the threshold —
is rejected (the code requires a STRICTLY greater pull), refuting the
claim that a launch at the threshold magnitude is accepted: the engine
state is completely unchanged, still AIMING with zero shots used. -/
theorem C3_threshold_boundary_counterexample :
    ((Vector2D.mk 0 0).sub ⟨-10, 0⟩).magnitude = 10 ∧
    launch_spaceship esAiming ⟨-10, 0⟩ ⟨0, 0⟩ = esAiming ∧
    esAiming.state = GameState.AIMING ∧
    esAiming.level.shots_used = 0 := by
  have hsub : (Vector2D.mk 0 0).sub ⟨-10, 0⟩ = ⟨10, 0⟩ := by
    unfold Vector2D.sub
    ext <;> norm_num
  have hmag : ((Vector2D.mk 0 0).sub ⟨-10, 0⟩).magnitude = 10 := by
    rw [hsub]
    exact magnitude_axis 10 (by norm_num)
  exact ⟨hmag,
    launch_spaceship_reject esAiming ⟨-10, 0⟩ ⟨0, 0⟩ rfl (le_of_eq hmag),
    rfl, rfl⟩

/-- C3 amended: a launch command on an unlaunched ship is rejected
atomically (no state, budget or ship change, no error) when the pull
magnitude is at most the threshold 10, and accepted — velocity set to the
slingshot value, exactly one shot consumed, state FLYING — exactly when
the pull magnitude strictly exceeds 10. -/
theorem C3_launch_threshold :
    ∀ (es : EngineState) (mouse base : Vector2D),
      es.spaceship.launched = false →
      ((base.sub mouse).magnitude ≤ 10 → launch_spaceship es mouse base = es) ∧
      (10 < (base.sub mouse).magnitude →
        (launch_spaceship es mouse base).state = GameState.FLYING ∧
        (launch_spaceship es mouse base).level.shots_used =
          es.level.shots_used + 1 ∧
        (launch_spaceship es mouse base).spaceship.velocity =
          (((base.sub mouse).normalize).mul
            (min (base.sub mouse).magnitude 120 / 120)).mul 350 ∧
        (launch_spaceship es mouse base).spaceship.launched = true ∧
        (launch_spaceship es mouse base).spaceship.position =
          es.spaceship.position) := by
  intro es mouse base h
  constructor
  · exact launch_spaceship_reject es mouse base h
  · intro hmag
    rw [launch_spaceship_accept es mouse base h hmag]
    exact ⟨rfl, rfl, rfl, rfl, rfl⟩

/-- Witness for C3 with a pull of magnitude 20: accepted, one shot used,
ship launched. -/
theorem C3_launch_threshold_witness :
    (launch_spaceship esAiming ⟨-20, 0⟩ ⟨0, 0⟩).state = GameState.FLYING ∧
    (launch_spaceship esAiming ⟨-20, 0⟩ ⟨0, 0⟩).level.shots_used = 1 ∧
    (launch_spaceship esAiming ⟨-20, 0⟩ ⟨0, 0⟩).spaceship.launched = true := by
  have hsub : (Vector2D.mk 0 0).sub ⟨-20, 0⟩ = ⟨20, 0⟩ := by
    unfold Vector2D.sub
    ext <;> norm_num
  have hmag : 10 < ((Vector2D.mk 0 0).sub ⟨-20, 0⟩).magnitude := by
    rw [hsub, magnitude_axis 20 (by norm_num)]
    norm_num
  have h := (C3_launch_threshold esAiming ⟨-20, 0⟩ ⟨0, 0⟩ rfl).2 hmag
  exact ⟨h.1, h.2.1, h.2.2.2.1⟩

/-- Flying tick, first collider is the goal, post-step position on
screen: the level completes. -/
theorem tick_goal_case (es : EngineState) (dt : ℝ) (i : Nat)
    (h : es.spaceship.launched = true)
    (h2 : firstCollisionIdx (physicsStepShip es.spaceship es.level.gravity_sources dt)
        0 es.level.objects = some i)
    (h3 : es.level.goalIdx = some i)
    (h4 : ¬ offScreen
        (physicsStepShip es.spaceship es.level.gravity_sources dt).position) :
    (update_flying es dt).state = GameState.LEVEL_COMPLETE := by
  rw [update_flying_eq es dt h]
  rw [check_collisions_goal
    { es with spaceship := physicsStepShip es.spaceship es.level.gravity_sources dt }
    i h h2 h3]
  rw [if_neg h4]

/-- State after an exhausted-budget reset, stated on the projection. -/
theorem reset_state_over (es : EngineState)
    (h : es.level.max_shots ≤ es.level.shots_used) :
    (reset_for_next_shot es).state = GameState.GAME_OVER := by
  rw [reset_for_next_shot_over es h]

/-- State and ship after a retry reset, stated on the projections. -/
theorem reset_state_retry (es : EngineState)
    (h : es.level.shots_used < es.level.max_shots) :
    (reset_for_next_shot es).state = GameState.AIMING ∧
    (reset_for_next_shot es).spaceship =
      Spaceship.new es.level.spaceship_start.x es.level.spaceship_start.y := by
  rw [reset_for_next_shot_retry es h]
  exact ⟨rfl, rfl⟩

/-- Flying tick, first collider is not the goal, budget exhausted: game
over (whether or not the post-step position is off screen). -/
theorem tick_obstacle_over_case (es : EngineState) (dt : ℝ) (i : Nat)
    (h : es.spaceship.launched = true)
    (h2 : firstCollisionIdx (physicsStepShip es.spaceship es.level.gravity_sources dt)
        0 es.level.objects = some i)
    (h3 : ¬ es.level.goalIdx = some i)
    (hb : es.level.max_shots ≤ es.level.shots_used) :
    (update_flying es dt).state = GameState.GAME_OVER := by
  rw [update_flying_eq es dt h]
  rw [check_collisions_obstacle
    { es with spaceship := physicsStepShip es.spaceship es.level.gravity_sources dt }
    i h h2 h3]
  rw [reset_for_next_shot_over
    { es with spaceship := physicsStepShip es.spaceship es.level.gravity_sources dt } hb]
  by_cases hoff :
      offScreen (physicsStepShip es.spaceship es.level.gravity_sources dt).position
  · rw [if_pos hoff]
    exact reset_state_over _ hb
  · rw [if_neg hoff]

/-- Flying tick, first collider is not the goal, shots remaining: retry —
fresh ship at the level start, state AIMING. -/
theorem tick_obstacle_retry_case (es : EngineState) (dt : ℝ) (i : Nat)
    (h : es.spaceship.launched = true)
    (h2 : firstCollisionIdx (physicsStepShip es.spaceship es.level.gravity_sources dt)
        0 es.level.objects = some i)
    (h3 : ¬ es.level.goalIdx = some i)
    (hb : es.level.shots_used < es.level.max_shots) :
    (update_flying es dt).state = GameState.AIMING ∧
    (update_flying es dt).spaceship =
      Spaceship.new es.level.spaceship_start.x es.level.spaceship_start.y := by
  rw [update_flying_eq es dt h]
  rw [check_collisions_obstacle
    { es with spaceship := physicsStepShip es.spaceship es.level.gravity_sources dt }
    i h h2 h3]
  rw [reset_for_next_shot_retry
    { es with spaceship := physicsStepShip es.spaceship es.level.gravity_sources dt } hb]
  by_cases hoff :
      offScreen (Spaceship.new es.level.spaceship_start.x
        es.level.spaceship_start.y).position
  · rw [if_pos hoff]
    exact reset_state_retry _ hb
  · rw [if_neg hoff]
    exact ⟨rfl, rfl⟩

/-- Flying tick, no collision, post-step position off screen: the
failed-or-retry decision runs (game over or back to aiming by budget). -/
theorem tick_nocollision_off_case (es : EngineState) (dt : ℝ)
    (h : es.spaceship.launched = true)
    (h2 : firstCollisionIdx (physicsStepShip es.spaceship es.level.gravity_sources dt)
        0 es.level.objects = none)
    (hoff : offScreen (physicsStepShip es.spaceship es.level.gravity_sources dt).position) :
    (update_flying es dt).state =
      (if es.level.max_shots ≤ es.level.shots_used then GameState.GAME_OVER
       else GameState.AIMING) := by
  rw [update_flying_eq es dt h]
  rw [check_collisions_none
    { es with spaceship := physicsStepShip es.spaceship es.level.gravity_sources dt } h2]
  rw [if_pos hoff]
  by_cases hb : es.level.max_shots ≤ es.level.shots_used
  · rw [if_pos hb]
    exact reset_state_over _ hb
  · rw [if_neg hb]
    exact (reset_state_retry
      { es with spaceship := physicsStepShip es.spaceship es.level.gravity_sources dt }
      (not_le.mp hb)).1

/-- Flying tick, no collision, post-step position on screen: only the
integrator ran; state and level untouched. -/
theorem tick_nocollision_on_case (es : EngineState) (dt : ℝ)
    (h : es.spaceship.launched = true)
    (h2 : firstCollisionIdx (physicsStepShip es.spaceship es.level.gravity_sources dt)
        0 es.level.objects = none)
    (hoff : ¬ offScreen (physicsStepShip es.spaceship es.level.gravity_sources dt).position) :
    update_flying es dt =
      { es with spaceship := physicsStepShip es.spaceship es.level.gravity_sources dt } := by
  rw [update_flying_eq es dt h]
  rw [check_collisions_none
    { es with spaceship := physicsStepShip es.spaceship es.level.gravity_sources dt } h2]
  rw [if_neg hoff]

/-- C1 amended: on a flying tick the integrator runs once and collisions
are evaluated BEFORE the off-screen test, but among collisions it is the
FIRST colliding object in the level's object list that decides — the goal
only wins when it is that first collider; otherwise the failed-or-retry
decision runs. With no collision, an off-screen position triggers the
failed-or-retry decision, and otherwise only the integrator's effect on
the ship remains. -/
theorem C1_flying_tick_order :
    ∀ (es : EngineState) (dt : ℝ),
      es.spaceship.launched = true →
      (∀ i : Nat,
        firstCollisionIdx (physicsStepShip es.spaceship es.level.gravity_sources dt)
            0 es.level.objects = some i →
        es.level.goalIdx = some i →
        ¬ offScreen (physicsStepShip es.spaceship es.level.gravity_sources dt).position →
        (update_flying es dt).state = GameState.LEVEL_COMPLETE) ∧
      (∀ i : Nat,
        firstCollisionIdx (physicsStepShip es.spaceship es.level.gravity_sources dt)
            0 es.level.objects = some i →
        ¬ es.level.goalIdx = some i →
        es.level.max_shots ≤ es.level.shots_used →
        (update_flying es dt).state = GameState.GAME_OVER) ∧
      (∀ i : Nat,
        firstCollisionIdx (physicsStepShip es.spaceship es.level.gravity_sources dt)
            0 es.level.objects = some i →
        ¬ es.level.goalIdx = some i →
        es.level.shots_used < es.level.max_shots →
        (update_flying es dt).state = GameState.AIMING ∧
        (update_flying es dt).spaceship =
          Spaceship.new es.level.spaceship_start.x es.level.spaceship_start.y) ∧
      (firstCollisionIdx (physicsStepShip es.spaceship es.level.gravity_sources dt)
            0 es.level.objects = none →
        offScreen (physicsStepShip es.spaceship es.level.gravity_sources dt).position →
        (update_flying es dt).state =
          (if es.level.max_shots ≤ es.level.shots_used then GameState.GAME_OVER
           else GameState.AIMING)) ∧
      (firstCollisionIdx (physicsStepShip es.spaceship es.level.gravity_sources dt)
            0 es.level.objects = none →
        ¬ offScreen (physicsStepShip es.spaceship es.level.gravity_sources dt).position →
        update_flying es dt =
          { es with
              spaceship := physicsStepShip es.spaceship es.level.gravity_sources dt }) := by
  intro es dt h
  exact ⟨fun i => tick_goal_case es dt i h,
         fun i => tick_obstacle_over_case es dt i h,
         fun i => tick_obstacle_retry_case es dt i h,
         tick_nocollision_off_case es dt h,
         tick_nocollision_on_case es dt h⟩

/-- Witness for C1 on the goal-first level: the goal is the first
collider in list order and the tick ends in LEVEL_COMPLETE. -/
theorem C1_flying_tick_order_witness :
    (update_flying esGoalFirst (1 / 10)).state = GameState.LEVEL_COMPLETE := by
  have hstep : physicsStepShip esGoalFirst.spaceship
      esGoalFirst.level.gravity_sources (1 / 10) = shipFlying :=
    physicsStepShip_nil_zero shipFlying (1 / 10) rfl
  refine (C1_flying_tick_order esGoalFirst (1 / 10) rfl).1 0 ?_ rfl ?_
  · rw [hstep]
    exact fci_goal_obst
  · rw [hstep]
    exact not_offScreen_test_pos

/-- C1 counterexample: both the goal and an obstacle overlap the craft on
the same tick, but the obstacle precedes the goal in the object list, so
the tick ends in GAME_OVER — not LEVEL_COMPLETE as the claim requires
for every object order. -/
theorem C1_goal_priority_counterexample :
    esObstFirst.level.objects = [obstC, goalC] ∧
    esObstFirst.level.goalIdx = some 1 ∧
    physicsStepShip esObstFirst.spaceship esObstFirst.level.gravity_sources (1 / 10) =
      shipFlying ∧
    shipCollides shipFlying obstC ∧
    shipCollides shipFlying goalC ∧
    (update_flying esObstFirst (1 / 10)).state = GameState.GAME_OVER ∧
    (update_flying esObstFirst (1 / 10)).state ≠ GameState.LEVEL_COMPLETE := by
  refine ⟨rfl, rfl, physicsStepShip_nil_zero shipFlying (1 / 10) rfl,
    shipFlying_hits_obstC, shipFlying_hits_goalC, ?_, ?_⟩
  · rw [update_flying_esObstFirst]
  · rw [update_flying_esObstFirst]
    simp
